import Mathlib

/-!
# Verification of the centric-ibridge lifecycle core

Shallow embedding of `src/core/startable.py` (the `Startable` lifecycle state
machine with listener notification and the `StartableManager` composite) and of
`src/core/msgpexec.py` (the `ProcessThreadExecutor.subprocess_entry` worker
dispatch loop with its shutdown sentinel).

Modelling choices, all read off the source:
* the Python integer state constants become the enumeration `SState`;
* subclass hooks (`do_configure`/`do_start`/`do_stop`) either return normally
  or raise; a hook's behaviour is passed to each operation as an
  `Option Nat` — `none` means the hook returns, `some e` means it raises the
  exception identified by `e`;
* each public operation returns a `StepRes`: the post object, the ordered list
  of values assigned to `_state` (`writes`), the ordered list of listener
  deliveries (`events`, one `(listener, event)` pair per callback invocation),
  and `raised` — the exception the call re-raises, if any;
* listeners are opaque values; `LVal.listener` models a `StartableListener`
  instance and `LVal.nonListener` models any other value, so the
  `isinstance` checks in `add_listener`/`remove_listener` are expressible;
* the configuration object is opaque (`Option Nat`), shared by assignment as
  in the source.
-/

/-- The state constants of `Startable`
(`FAILED, STOPPED, STARTING, STARTED, STOPPING, CONFIGURING, CONFIGURED,
UNCONFIGURED = -1, 0, 1, 2, 3, 4, 5, 6` in `startable.py`). -/
inductive SState where
  | FAILED
  | STOPPED
  | STARTING
  | STARTED
  | STOPPING
  | CONFIGURING
  | CONFIGURED
  | UNCONFIGURED
deriving DecidableEq, Repr

/-- A value that may be handed to `add_listener`/`remove_listener`: either a
`StartableListener` instance (identified by a number) or any other object. -/
inductive LVal where
  | listener (id : Nat)
  | nonListener (id : Nat)
deriving DecidableEq, Repr

/-- The seven listener callback kinds of `StartableListener`; `failure`
carries the exception passed to `on_failure`. -/
inductive EvKind where
  | configuring
  | configured
  | starting
  | started
  | stopping
  | stopped
  | failure (exc : Nat)
deriving DecidableEq, Repr

/-- The observable fields of a `Startable` object: `_state`, the secondary
`_configured` marker, `_enabled`, `_listeners` and `_configuration`
(`Startable.__init__`). The reentrant lock is not modelled: every claim here
is single-threaded and the lock is always released on exit. -/
structure Startable where
  state : SState
  configured : SState
  enabled : Bool
  listeners : List LVal
  configuration : Option Nat
deriving DecidableEq, Repr

/-- `Startable.__init__`: state `STOPPED`, marker `UNCONFIGURED`, enabled,
no listeners. -/
def Startable.init (config : Option Nat) : Startable :=
  { state := .STOPPED
    configured := .UNCONFIGURED
    enabled := true
    listeners := []
    configuration := config }

/-- Result of one `configure()`/`start()`/`stop()` call: the post object, the
sequence of values assigned to `_state`, the listener deliveries in order, and
the exception the call re-raises (if any). -/
structure StepRes where
  post : Startable
  writes : List SState
  events : List (LVal × EvKind)
  raised : Option Nat
deriving DecidableEq, Repr

/-- Result of one private `_set_*` transition helper. -/
structure Frag where
  post : Startable
  writes : List SState
  events : List (LVal × EvKind)
deriving DecidableEq, Repr

/-- `Startable._set_configuring`: `_state := CONFIGURING`,
`_configured := _state`, then notify `on_configuring` on every listener in
list order. -/
def setConfiguring (s : Startable) : Frag :=
  { post := { s with state := .CONFIGURING, configured := .CONFIGURING }
    writes := [.CONFIGURING]
    events := s.listeners.map (fun l => (l, EvKind.configuring)) }

/-- `Startable._set_configured`: `_state := CONFIGURED`,
`_configured := _state`, then notify `on_configured`. -/
def setConfigured (s : Startable) : Frag :=
  { post := { s with state := .CONFIGURED, configured := .CONFIGURED }
    writes := [.CONFIGURED]
    events := s.listeners.map (fun l => (l, EvKind.configured)) }

/-- `Startable._set_failed`: `_state := FAILED` (the `_configured` marker is
left untouched), then notify `on_failure` with the exception. -/
def setFailed (s : Startable) (exc : Nat) : Frag :=
  { post := { s with state := .FAILED }
    writes := [.FAILED]
    events := s.listeners.map (fun l => (l, EvKind.failure exc)) }

/-- `Startable._set_starting`. -/
def setStarting (s : Startable) : Frag :=
  { post := { s with state := .STARTING }
    writes := [.STARTING]
    events := s.listeners.map (fun l => (l, EvKind.starting)) }

/-- `Startable._set_started`. -/
def setStarted (s : Startable) : Frag :=
  { post := { s with state := .STARTED }
    writes := [.STARTED]
    events := s.listeners.map (fun l => (l, EvKind.started)) }

/-- `Startable._set_stopping`. -/
def setStopping (s : Startable) : Frag :=
  { post := { s with state := .STOPPING }
    writes := [.STOPPING]
    events := s.listeners.map (fun l => (l, EvKind.stopping)) }

/-- `Startable._set_stopped`. -/
def setStopped (s : Startable) : Frag :=
  { post := { s with state := .STOPPED }
    writes := [.STOPPED]
    events := s.listeners.map (fun l => (l, EvKind.stopped)) }

/-- A call that returns immediately: no state write, no event, no exception. -/
def noopRes (s : Startable) : StepRes :=
  { post := s, writes := [], events := [], raised := none }

/-- `Startable.configure` with the behaviour of `do_configure` given by
`hookExc`. Mirrors the source: early return when
`_configured == CONFIGURED or _state in [CONFIGURED, CONFIGURING]`;
otherwise `_set_configuring`, run the hook, then `_set_configured`, or on a
hook exception `_set_failed` and re-raise. -/
def Startable.configure (s : Startable) (hookExc : Option Nat) : StepRes :=
  if s.configured = .CONFIGURED ∨ s.state = .CONFIGURED ∨ s.state = .CONFIGURING then
    noopRes s
  else
    let f1 := setConfiguring s
    match hookExc with
    | none =>
        let f2 := setConfigured f1.post
        { post := f2.post
          writes := f1.writes ++ f2.writes
          events := f1.events ++ f2.events
          raised := none }
    | some e =>
        let f2 := setFailed f1.post e
        { post := f2.post
          writes := f1.writes ++ f2.writes
          events := f1.events ++ f2.events
          raised := some e }

/-- `Startable.start` with hook behaviours `confExc` (for the implicit
`configure()`'s `do_configure`) and `startExc` (for `do_start`). Mirrors the
source: `self.configure()` runs first iff `_configured == UNCONFIGURED` and is
outside the `try`, so its exception propagates before anything else happens;
then the early return when `not _enabled or _state in [STARTED, STARTING]`;
otherwise `_set_starting`, `do_start`, `_set_started`, with `_set_failed` and
re-raise on a hook exception. -/
def Startable.start (s : Startable) (confExc startExc : Option Nat) : StepRes :=
  let c :=
    if s.configured = .UNCONFIGURED then s.configure confExc else noopRes s
  match c.raised with
  | some e =>
      { post := c.post, writes := c.writes, events := c.events, raised := some e }
  | none =>
      if ¬ c.post.enabled ∨ c.post.state = .STARTED ∨ c.post.state = .STARTING then
        { post := c.post, writes := c.writes, events := c.events, raised := none }
      else
        let f1 := setStarting c.post
        match startExc with
        | none =>
            let f2 := setStarted f1.post
            { post := f2.post
              writes := c.writes ++ f1.writes ++ f2.writes
              events := c.events ++ f1.events ++ f2.events
              raised := none }
        | some e =>
            let f2 := setFailed f1.post e
            { post := f2.post
              writes := c.writes ++ f1.writes ++ f2.writes
              events := c.events ++ f1.events ++ f2.events
              raised := some e }

/-- `Startable.stop` with the behaviour of `do_stop` given by `hookExc`.
Early return when `_state in [STOPPED, STOPPING]`; otherwise `_set_stopping`,
`do_stop`, `_set_stopped`, with `_set_failed` and re-raise on a hook
exception. -/
def Startable.stop (s : Startable) (hookExc : Option Nat) : StepRes :=
  if s.state = .STOPPED ∨ s.state = .STOPPING then
    noopRes s
  else
    let f1 := setStopping s
    match hookExc with
    | none =>
        let f2 := setStopped f1.post
        { post := f2.post
          writes := f1.writes ++ f2.writes
          events := f1.events ++ f2.events
          raised := none }
    | some e =>
        let f2 := setFailed f1.post e
        { post := f2.post
          writes := f1.writes ++ f2.writes
          events := f1.events ++ f2.events
          raised := some e }

/-- `Startable.add_listener`: append iff the value is a `StartableListener`
(`isinstance` check), silently ignore anything else. -/
def Startable.addListener (s : Startable) (v : LVal) : Startable :=
  match v with
  | .listener _ => { s with listeners := s.listeners ++ [v] }
  | .nonListener _ => s

/-- `Startable.remove_listener`: when the value is a `StartableListener` and
is present, pop the element at its first index; silently ignore anything
else. -/
def Startable.removeListener (s : Startable) (v : LVal) : Startable :=
  match v with
  | .listener _ =>
      if v ∈ s.listeners then
        { s with listeners := s.listeners.eraseIdx (s.listeners.indexOf v) }
      else s
  | .nonListener _ => s

/-! ## Call sequences over a `Startable` (for the trace claims) -/

/-- One public call, carrying the behaviour of the hooks it may run. -/
inductive Call where
  | conf (hookExc : Option Nat)
  | strt (confExc startExc : Option Nat)
  | stp (hookExc : Option Nat)
deriving DecidableEq, Repr

/-- Execute one call. -/
def applyCall (s : Startable) : Call → StepRes
  | .conf e => s.configure e
  | .strt ce se => s.start ce se
  | .stp e => s.stop e

/-- Execute a sequence of calls, collecting each call's `StepRes`. -/
def runCalls (s : Startable) : List Call → List StepRes
  | [] => []
  | c :: cs =>
      let r := applyCall s c
      r :: runCalls r.post cs

/-- All `_state` writes performed by a call sequence, in order. -/
def runWrites (s : Startable) (cs : List Call) : List SState :=
  (runCalls s cs).flatMap (fun r => r.writes)

/-- `chainOk edge a ws` holds when `a :: ws` steps only along `edge`. -/
def chainOk (edge : SState → SState → Bool) : SState → List SState → Bool
  | _, [] => true
  | a, b :: rest => edge a b && chainOk edge b rest

/-! ## The `ProcessThreadExecutor.subprocess_entry` dispatch loop -/

/-- A queued message: the shutdown sentinel (`ShutdownMessage`, the message
constructed with the reserved discriminator 999) or an ordinary
`AbstractMessage`, identified by a number and tagged with whether the engine's
`execute_module` raises on it. -/
inductive QMsg where
  | shutdown
  | message (id : Nat) (raisesExc : Bool)
deriving DecidableEq, Repr

/-- The dispatch loop of `ProcessThreadExecutor.subprocess_entry` over the
queue's contents: dequeue; on the sentinel `break` out of the loop; on any
other message call the engine's `execute_module`, catching and logging an
exception without leaving the loop. Returns the ids passed to
`execute_module` in order, paired with the ids whose execution raised (and
was logged). The source's `Empty`-timeout branch only retries, so an
exhausted queue ends the observation. -/
def subprocessEntry : List QMsg → List Nat × List Nat
  | [] => ([], [])
  | .shutdown :: _ => ([], [])
  | .message id r :: rest =>
      let p := subprocessEntry rest
      (id :: p.1, if r then id :: p.2 else p.2)

/-! ## The `StartableManager` composite cascade -/

/-- One child of a `StartableManager`, with the behaviours of its own three
hooks. -/
structure ChildSpec where
  obj : Startable
  confExc : Option Nat
  startExc : Option Nat
  stopExc : Option Nat
deriving DecidableEq, Repr

/-- `StartableManager.do_configure`: for each child in order,
`set_configuration(self.get_configuration())` then `configure()`, catching
and logging any exception. Returns each child's post object paired with the
caught exception, if any. -/
def mgrDoConfigure (cfg : Option Nat) : List ChildSpec → List (Startable × Option Nat)
  | [] => []
  | c :: rest =>
      let r := Startable.configure { c.obj with configuration := cfg } c.confExc
      (r.post, r.raised) :: mgrDoConfigure cfg rest

/-- `StartableManager.do_start`: for each child in order, `start()`, catching
and logging any exception. -/
def mgrDoStart : List ChildSpec → List (Startable × Option Nat)
  | [] => []
  | c :: rest =>
      let r := c.obj.start c.confExc c.startExc
      (r.post, r.raised) :: mgrDoStart rest

/-- `StartableManager.do_stop`: for each child in order, `stop()`, catching
and logging any exception. -/
def mgrDoStop : List ChildSpec → List (Startable × Option Nat)
  | [] => []
  | c :: rest =>
      let r := c.obj.stop c.stopExc
      (r.post, r.raised) :: mgrDoStop rest

/-- `StartableManager.configure()`: the inherited `Startable.configure` whose
`do_configure` hook is the cascade above. The cascade catches every child
exception, so the manager's hook returns normally (`none`); the updated
children are returned alongside. -/
def managerConfigure (m : Startable) (children : List ChildSpec) :
    StepRes × List (Startable × Option Nat) :=
  (m.configure none, mgrDoConfigure m.configuration children)

/-- `StartableManager.start()`: the inherited `Startable.start` whose
`do_configure` and `do_start` hooks are the cascades above, both of which
catch every child exception and return normally. -/
def managerStart (m : Startable) (children : List ChildSpec) :
    StepRes × List (Startable × Option Nat) :=
  (m.start none none, mgrDoStart children)

/-- `StartableManager.stop()`: the inherited `Startable.stop` whose `do_stop`
hook is the cascade above, which catches every child exception and returns
normally. -/
def managerStop (m : Startable) (children : List ChildSpec) :
    StepRes × List (Startable × Option Nat) :=
  (m.stop none, mgrDoStop children)

/-! ## Helper functions for the claim statements -/

/-- Whether a queued message is the shutdown sentinel
(the `isinstance(message_obj, ShutdownMessage)` test). -/
def isShutdown : QMsg → Bool
  | .shutdown => true
  | .message _ _ => false

/-- The id of an ordinary message; the sentinel has none. -/
def msgId : QMsg → Option Nat
  | .shutdown => none
  | .message id _ => some id

/-! ## C2: the sentinel terminates the dispatch loop -/

/-- C2: in the worker dispatch loop, `execute_module` is invoked on exactly
the non-sentinel messages strictly before the first shutdown sentinel, in
order: the sentinel is dequeued at most once, is never passed to
`execute_module`, the loop exits immediately on it, and nothing enqueued
after it is ever processed. In particular for queue contents
`[A, B, sentinel, C]` the engine is invoked exactly twice, on `A` and `B`,
and never on `C`. -/
theorem claim_C2_sentinel_terminates_loop :
    (∀ qs : List QMsg,
      (subprocessEntry qs).1 =
        (qs.takeWhile (fun m => ! isShutdown m)).filterMap msgId)
    ∧ (∀ (a b c : Nat) (fa fb fc : Bool),
        (subprocessEntry
          [QMsg.message a fa, QMsg.message b fb, QMsg.shutdown,
           QMsg.message c fc]).1 = [a, b]) := by
  constructor
  · intro qs
    induction qs with
    | nil => rfl
    | cons m rest ih =>
        cases m with
        | shutdown => simp [subprocessEntry, isShutdown, List.takeWhile]
        | message id r =>
            simp [subprocessEntry, isShutdown, List.takeWhile, msgId, ih]
  · intro a b c fa fb fc
    simp [subprocessEntry]

/-! ## C6: a raising message does not kill the worker loop -/

/-- C6: an exception from the engine's `execute_module` on a non-sentinel
message is caught (and appears in the log) without terminating the dispatch
loop: the raising message is still counted as invoked, every subsequently
dequeued message is processed exactly as before, and for a queue prefix
`[A, B]` where executing `A` raises, `execute_module` is still invoked on
`B`. -/
theorem claim_C6_exception_does_not_stop_loop :
    (∀ (id : Nat) (rest : List QMsg),
      subprocessEntry (QMsg.message id true :: rest) =
        (id :: (subprocessEntry rest).1, id :: (subprocessEntry rest).2))
    ∧ (∀ (a b : Nat) (fb : Bool),
        (subprocessEntry [QMsg.message a true, QMsg.message b fb]).1 = [a, b]) := by
  constructor
  · intro id rest
    simp [subprocessEntry]
  · intro a b fb
    simp [subprocessEntry]

/-! ## C8: listener registration is type-checked and set-idempotent -/

/-- C8: `add_listener` silently ignores any value that is not a
`StartableListener` (the object is unchanged, no error); adding a listener
that is already registered leaves the *set* of registered listeners unchanged
(membership is preserved, though the list gains a duplicate occurrence); and
`remove_listener` likewise silently ignores non-listener values. -/
theorem claim_C8_add_listener_type_checked_set_idempotent :
    ∀ (s : Startable) (n : Nat),
      s.addListener (.nonListener n) = s
      ∧ s.removeListener (.nonListener n) = s
      ∧ (LVal.listener n ∈ s.listeners →
          ∀ x : LVal,
            (x ∈ (s.addListener (.listener n)).listeners ↔ x ∈ s.listeners)) := by
  intro s n
  refine ⟨rfl, rfl, ?_⟩
  intro h x
  simp only [Startable.addListener, List.mem_append, List.mem_singleton]
  constructor
  · rintro (hx | rfl)
    · exact hx
    · exact h
  · intro hx
    exact Or.inl hx

/-- Witness for C8 at a concrete object: the listener `5` is already
registered, and re-adding it preserves membership. -/
theorem claim_C8_witness :
    LVal.listener 5 ∈
        ((Startable.mk .STOPPED .UNCONFIGURED true [.listener 5] none).addListener
          (.listener 5)).listeners
      ↔ LVal.listener 5 ∈
          (Startable.mk .STOPPED .UNCONFIGURED true [.listener 5] none).listeners :=
  (claim_C8_add_listener_type_checked_set_idempotent
      (Startable.mk .STOPPED .UNCONFIGURED true [.listener 5] none) 5).2.2
    (by decide) (LVal.listener 5)

/-! ## C10: a disabled fresh object still configures on start() -/

/-- C10: for a fresh, never-configured `Startable` whose enabled flag is
false, `start()` still performs the full configuration — the state passes
through `CONFIGURING` to `CONFIGURED` and the configuring/configured events
fire for every listener — because the implicit `configure()` runs before the
enabled guard; `start()` then returns without raising and without any
starting/started transition or event. -/
theorem claim_C10_disabled_start_still_configures :
    ∀ (ls : List LVal) (cfg : Option Nat),
      (Startable.start
          (Startable.mk .STOPPED .UNCONFIGURED false ls cfg) none none).writes =
          [.CONFIGURING, .CONFIGURED]
      ∧ (Startable.start
          (Startable.mk .STOPPED .UNCONFIGURED false ls cfg) none none).events =
          ls.map (fun l => (l, EvKind.configuring))
            ++ ls.map (fun l => (l, EvKind.configured))
      ∧ (Startable.start
          (Startable.mk .STOPPED .UNCONFIGURED false ls cfg) none none).post.state =
          .CONFIGURED
      ∧ (Startable.start
          (Startable.mk .STOPPED .UNCONFIGURED false ls cfg) none none).raised =
          none := by
  intro ls cfg
  refine ⟨?_, ?_, ?_, ?_⟩ <;>
    simp [Startable.start, Startable.configure, setConfiguring, setConfigured, noopRes]

/-! ## Characterization lemmas for the three public operations -/

/-- Early return of `configure()` when the guard holds. -/
theorem cfg_noop (s : Startable) (he : Option Nat)
    (h : s.configured = .CONFIGURED ∨ s.state = .CONFIGURED ∨ s.state = .CONFIGURING) :
    s.configure he = noopRes s := by
  simp [Startable.configure, h]

/-- Successful `configure()` when the guard does not hold. -/
theorem cfg_ok (s : Startable)
    (h : ¬ (s.configured = .CONFIGURED ∨ s.state = .CONFIGURED ∨ s.state = .CONFIGURING)) :
    s.configure none =
      { post := { s with state := .CONFIGURED, configured := .CONFIGURED }
        writes := [.CONFIGURING, .CONFIGURED]
        events := s.listeners.map (fun l => (l, EvKind.configuring))
          ++ s.listeners.map (fun l => (l, EvKind.configured))
        raised := none } := by
  simp [Startable.configure, h, setConfiguring, setConfigured]

/-- Failing `configure()`: the hook raises `e`, the marker is left at
`CONFIGURING`. -/
theorem cfg_fail (s : Startable) (e : Nat)
    (h : ¬ (s.configured = .CONFIGURED ∨ s.state = .CONFIGURED ∨ s.state = .CONFIGURING)) :
    s.configure (some e) =
      { post := { s with state := .FAILED, configured := .CONFIGURING }
        writes := [.CONFIGURING, .FAILED]
        events := s.listeners.map (fun l => (l, EvKind.configuring))
          ++ s.listeners.map (fun l => (l, EvKind.failure e))
        raised := some e } := by
  simp [Startable.configure, h, setConfiguring, setFailed]

/-- Early return of `stop()` when the guard holds. -/
theorem stp_noop (s : Startable) (he : Option Nat)
    (h : s.state = .STOPPED ∨ s.state = .STOPPING) :
    s.stop he = noopRes s := by
  simp [Startable.stop, h]

/-- Successful `stop()` when the guard does not hold. -/
theorem stp_ok (s : Startable)
    (h : ¬ (s.state = .STOPPED ∨ s.state = .STOPPING)) :
    s.stop none =
      { post := { s with state := .STOPPED }
        writes := [.STOPPING, .STOPPED]
        events := s.listeners.map (fun l => (l, EvKind.stopping))
          ++ s.listeners.map (fun l => (l, EvKind.stopped))
        raised := none } := by
  simp [Startable.stop, h, setStopping, setStopped]

/-- Failing `stop()`: the hook raises `e`. -/
theorem stp_fail (s : Startable) (e : Nat)
    (h : ¬ (s.state = .STOPPED ∨ s.state = .STOPPING)) :
    s.stop (some e) =
      { post := { s with state := .FAILED }
        writes := [.STOPPING, .FAILED]
        events := s.listeners.map (fun l => (l, EvKind.stopping))
          ++ s.listeners.map (fun l => (l, EvKind.failure e))
        raised := some e } := by
  simp [Startable.stop, h, setStopping, setFailed]

/-- `start()` when the implicit configure is skipped and the enabled/state
guard makes it return early. -/
theorem st_skip_noop (s : Startable) (ce se : Option Nat)
    (h1 : ¬ s.configured = .UNCONFIGURED)
    (h2 : ¬ s.enabled ∨ s.state = .STARTED ∨ s.state = .STARTING) :
    s.start ce se = noopRes s := by
  simp [Startable.start, h1, noopRes]
  intro hen
  rcases h2 with h | h | h
  · exact absurd hen h
  · simp [h]
  · simp [h]

/-- Successful `start()` when the implicit configure is skipped. -/
theorem st_skip_ok (s : Startable) (ce : Option Nat)
    (h1 : ¬ s.configured = .UNCONFIGURED)
    (h2 : s.enabled = true) (h3 : ¬ s.state = .STARTED) (h4 : ¬ s.state = .STARTING) :
    s.start ce none =
      { post := { s with state := .STARTED }
        writes := [.STARTING, .STARTED]
        events := s.listeners.map (fun l => (l, EvKind.starting))
          ++ s.listeners.map (fun l => (l, EvKind.started))
        raised := none } := by
  simp [Startable.start, h1, h2, h3, h4, noopRes, setStarting, setStarted]

/-- Failing `start()` when the implicit configure is skipped: `do_start`
raises `e`. -/
theorem st_skip_fail (s : Startable) (ce : Option Nat) (e : Nat)
    (h1 : ¬ s.configured = .UNCONFIGURED)
    (h2 : s.enabled = true) (h3 : ¬ s.state = .STARTED) (h4 : ¬ s.state = .STARTING) :
    s.start ce (some e) =
      { post := { s with state := .FAILED }
        writes := [.STARTING, .FAILED]
        events := s.listeners.map (fun l => (l, EvKind.starting))
          ++ s.listeners.map (fun l => (l, EvKind.failure e))
        raised := some e } := by
  simp [Startable.start, h1, h2, h3, h4, noopRes, setStarting, setFailed]

/-- `start()` on an unconfigured object whose implicit `configure()` raises:
the exception propagates before any start transition. -/
theorem st_cfg_fail (s : Startable) (se : Option Nat) (e : Nat)
    (h1 : s.configured = .UNCONFIGURED)
    (hg : ¬ (s.configured = .CONFIGURED ∨ s.state = .CONFIGURED ∨ s.state = .CONFIGURING)) :
    s.start (some e) se =
      { post := { s with state := .FAILED, configured := .CONFIGURING }
        writes := [.CONFIGURING, .FAILED]
        events := s.listeners.map (fun l => (l, EvKind.configuring))
          ++ s.listeners.map (fun l => (l, EvKind.failure e))
        raised := some e } := by
  simp [Startable.start, h1, cfg_fail s e hg]

/-- `start()` on a disabled unconfigured object: the implicit `configure()`
runs in full, then the enabled guard returns. -/
theorem st_cfg_ok_disabled (s : Startable) (se : Option Nat)
    (h1 : s.configured = .UNCONFIGURED)
    (hg : ¬ (s.configured = .CONFIGURED ∨ s.state = .CONFIGURED ∨ s.state = .CONFIGURING))
    (hen : s.enabled = false) :
    s.start none se =
      { post := { s with state := .CONFIGURED, configured := .CONFIGURED }
        writes := [.CONFIGURING, .CONFIGURED]
        events := s.listeners.map (fun l => (l, EvKind.configuring))
          ++ s.listeners.map (fun l => (l, EvKind.configured))
        raised := none } := by
  simp [Startable.start, h1, cfg_ok s hg, hen]

/-- Fully successful `start()` on an enabled unconfigured object: implicit
configure then the start transitions. -/
theorem st_cfg_ok_enabled (s : Startable)
    (h1 : s.configured = .UNCONFIGURED)
    (hg : ¬ (s.configured = .CONFIGURED ∨ s.state = .CONFIGURED ∨ s.state = .CONFIGURING))
    (hen : s.enabled = true) :
    s.start none none =
      { post := { s with state := .STARTED, configured := .CONFIGURED }
        writes := [.CONFIGURING, .CONFIGURED, .STARTING, .STARTED]
        events := s.listeners.map (fun l => (l, EvKind.configuring))
          ++ s.listeners.map (fun l => (l, EvKind.configured))
          ++ s.listeners.map (fun l => (l, EvKind.starting))
          ++ s.listeners.map (fun l => (l, EvKind.started))
        raised := none } := by
  simp [Startable.start, h1, cfg_ok s hg, hen, setStarting, setStarted]

/-- `start()` on an enabled unconfigured object whose `do_start` raises after
a successful implicit configure. -/
theorem st_cfg_ok_enabled_fail (s : Startable) (e : Nat)
    (h1 : s.configured = .UNCONFIGURED)
    (hg : ¬ (s.configured = .CONFIGURED ∨ s.state = .CONFIGURED ∨ s.state = .CONFIGURING))
    (hen : s.enabled = true) :
    s.start none (some e) =
      { post := { s with state := .FAILED, configured := .CONFIGURED }
        writes := [.CONFIGURING, .CONFIGURED, .STARTING, .FAILED]
        events := s.listeners.map (fun l => (l, EvKind.configuring))
          ++ s.listeners.map (fun l => (l, EvKind.configured))
          ++ s.listeners.map (fun l => (l, EvKind.starting))
          ++ s.listeners.map (fun l => (l, EvKind.failure e))
        raised := some e } := by
  simp [Startable.start, h1, cfg_ok s hg, hen, setStarting, setFailed]

/-- `start()` on an object whose marker is `UNCONFIGURED` while the configure
guard already holds (state `CONFIGURED`/`CONFIGURING`): the implicit
configure returns early, and the enabled/state guard then returns. -/
theorem st_cfgnoop_noop (s : Startable) (ce se : Option Nat)
    (h1 : s.configured = .UNCONFIGURED)
    (hg : s.configured = .CONFIGURED ∨ s.state = .CONFIGURED ∨ s.state = .CONFIGURING)
    (h2 : ¬ s.enabled ∨ s.state = .STARTED ∨ s.state = .STARTING) :
    s.start ce se = noopRes s := by
  simp only [Startable.start, h1, if_pos rfl, cfg_noop s ce hg, noopRes]
  have h2b : (s.enabled = false ∨ s.state = .STARTED ∨ s.state = .STARTING) := by
    rcases h2 with h | h | h
    · exact Or.inl (by simpa using h)
    · exact Or.inr (Or.inl h)
    · exact Or.inr (Or.inr h)
  simp [h2b]

/-- `start()` with marker `UNCONFIGURED` and the configure guard holding:
the implicit configure returns early and the start transitions run. -/
theorem st_cfgnoop_ok (s : Startable) (ce : Option Nat)
    (h1 : s.configured = .UNCONFIGURED)
    (hg : s.configured = .CONFIGURED ∨ s.state = .CONFIGURED ∨ s.state = .CONFIGURING)
    (h2 : s.enabled = true) (h3 : ¬ s.state = .STARTED) (h4 : ¬ s.state = .STARTING) :
    s.start ce none =
      { post := { s with state := .STARTED }
        writes := [.STARTING, .STARTED]
        events := s.listeners.map (fun l => (l, EvKind.starting))
          ++ s.listeners.map (fun l => (l, EvKind.started))
        raised := none } := by
  simp [Startable.start, h1, cfg_noop s ce hg, noopRes, h2, h3, h4, setStarting, setStarted]

/-- `start()` with marker `UNCONFIGURED`, the configure guard holding, and a
raising `do_start`. -/
theorem st_cfgnoop_fail (s : Startable) (ce : Option Nat) (e : Nat)
    (h1 : s.configured = .UNCONFIGURED)
    (hg : s.configured = .CONFIGURED ∨ s.state = .CONFIGURED ∨ s.state = .CONFIGURING)
    (h2 : s.enabled = true) (h3 : ¬ s.state = .STARTED) (h4 : ¬ s.state = .STARTING) :
    s.start ce (some e) =
      { post := { s with state := .FAILED }
        writes := [.STARTING, .FAILED]
        events := s.listeners.map (fun l => (l, EvKind.starting))
          ++ s.listeners.map (fun l => (l, EvKind.failure e))
        raised := some e } := by
  simp [Startable.start, h1, cfg_noop s ce hg, noopRes, h2, h3, h4, setStarting, setFailed]

/-- `configure()` with a non-raising hook never raises and never writes
`FAILED`. -/
theorem configure_none_safe (s : Startable) :
    (s.configure none).raised = none ∧ SState.FAILED ∉ (s.configure none).writes := by
  by_cases hg : s.configured = .CONFIGURED ∨ s.state = .CONFIGURED ∨ s.state = .CONFIGURING
  · simp [cfg_noop s none hg, noopRes]
  · simp [cfg_ok s hg]

/-- `start()` with non-raising hooks never raises and never writes
`FAILED`. -/
theorem start_none_safe (s : Startable) :
    (s.start none none).raised = none ∧ SState.FAILED ∉ (s.start none none).writes := by
  by_cases h1 : s.configured = .UNCONFIGURED
  · by_cases hg : s.configured = .CONFIGURED ∨ s.state = .CONFIGURED ∨ s.state = .CONFIGURING
    · by_cases h2 : ¬ s.enabled ∨ s.state = .STARTED ∨ s.state = .STARTING
      · simp [st_cfgnoop_noop s none none h1 hg h2, noopRes]
      · push_neg at h2
        simp [st_cfgnoop_ok s none h1 hg (by simpa using h2.1) h2.2.1 h2.2.2]
    · cases hen : s.enabled
      · simp [st_cfg_ok_disabled s none h1 hg hen]
      · simp [st_cfg_ok_enabled s h1 hg hen]
  · by_cases h2 : ¬ s.enabled ∨ s.state = .STARTED ∨ s.state = .STARTING
    · simp [st_skip_noop s none none h1 h2, noopRes]
    · push_neg at h2
      simp [st_skip_ok s none h1 (by simpa using h2.1) h2.2.1 h2.2.2]

/-- `stop()` with a non-raising hook never raises and never writes
`FAILED`. -/
theorem stop_none_safe (s : Startable) :
    (s.stop none).raised = none ∧ SState.FAILED ∉ (s.stop none).writes := by
  by_cases hg : s.state = .STOPPED ∨ s.state = .STOPPING
  · simp [stp_noop s none hg, noopRes]
  · simp [stp_ok s hg]

/-! ## C5: hook exception policy -/

/-- C5: when a `do_configure`/`do_start`/`do_stop` hook raises during
`configure()`/`start()`/`stop()` (the operation not having returned early on
its guard), the operation sets the state to `FAILED`, notifies every
registered listener's failure callback with that exception, and re-raises the
same exception. The `start()` case is covered both for an already-configured
object (marker not `UNCONFIGURED`) and for the first `start()` of a
never-configured enabled object, where the implicit `configure()` succeeds
and the raising `do_start` then fails the call the same way. Conversely, when
the hooks do not raise the operation does not raise and never writes
`FAILED`. -/
theorem claim_C5_failure_policy :
    ∀ (s : Startable) (e : Nat) (ce : Option Nat),
      (¬ (s.configured = .CONFIGURED ∨ s.state = .CONFIGURED ∨ s.state = .CONFIGURING) →
        (s.configure (some e)).post.state = .FAILED
        ∧ (s.configure (some e)).events =
            s.listeners.map (fun l => (l, EvKind.configuring))
              ++ s.listeners.map (fun l => (l, EvKind.failure e))
        ∧ (s.configure (some e)).raised = some e)
      ∧ (¬ s.configured = .UNCONFIGURED → s.enabled = true →
          ¬ s.state = .STARTED → ¬ s.state = .STARTING →
        (s.start ce (some e)).post.state = .FAILED
        ∧ (s.start ce (some e)).events =
            s.listeners.map (fun l => (l, EvKind.starting))
              ++ s.listeners.map (fun l => (l, EvKind.failure e))
        ∧ (s.start ce (some e)).raised = some e)
      ∧ (s.configured = .UNCONFIGURED →
          ¬ (s.configured = .CONFIGURED ∨ s.state = .CONFIGURED ∨ s.state = .CONFIGURING) →
          s.enabled = true →
        (s.start none (some e)).post.state = .FAILED
        ∧ (s.start none (some e)).events =
            s.listeners.map (fun l => (l, EvKind.configuring))
              ++ s.listeners.map (fun l => (l, EvKind.configured))
              ++ s.listeners.map (fun l => (l, EvKind.starting))
              ++ s.listeners.map (fun l => (l, EvKind.failure e))
        ∧ (s.start none (some e)).raised = some e)
      ∧ (¬ (s.state = .STOPPED ∨ s.state = .STOPPING) →
        (s.stop (some e)).post.state = .FAILED
        ∧ (s.stop (some e)).events =
            s.listeners.map (fun l => (l, EvKind.stopping))
              ++ s.listeners.map (fun l => (l, EvKind.failure e))
        ∧ (s.stop (some e)).raised = some e)
      ∧ ((s.configure none).raised = none ∧ SState.FAILED ∉ (s.configure none).writes)
      ∧ ((s.start none none).raised = none ∧ SState.FAILED ∉ (s.start none none).writes)
      ∧ ((s.stop none).raised = none ∧ SState.FAILED ∉ (s.stop none).writes) := by
  intro s e ce
  refine ⟨?_, ?_, ?_, ?_, ?_, ?_, ?_⟩
  · intro hg
    simp [cfg_fail s e hg]
  · intro h1 h2 h3 h4
    simp [st_skip_fail s ce e h1 h2 h3 h4]
  · intro h1 hg hen
    simp [st_cfg_ok_enabled_fail s e h1 hg hen]
  · intro hg
    simp [stp_fail s e hg]
  · exact configure_none_safe s
  · exact start_none_safe s
  · exact stop_none_safe s

/-- Witness for C5 at concrete objects and exception `7`: the three failing
operations on a configured object (state `FAILED`, marker `CONFIGURING`,
enabled) proceed and behave as claimed, and so does the first `start()` of a
fresh never-configured enabled object whose `do_start` raises. -/
theorem claim_C5_witness :
    ((Startable.mk .FAILED .CONFIGURING true [] none).configure (some 7)).post.state = .FAILED
    ∧ ((Startable.mk .FAILED .CONFIGURING true [] none).start none (some 7)).raised = some 7
    ∧ ((Startable.mk .STOPPED .UNCONFIGURED true [] none).start none (some 7)).post.state =
        .FAILED
    ∧ ((Startable.mk .STOPPED .UNCONFIGURED true [] none).start none (some 7)).raised = some 7
    ∧ ((Startable.mk .FAILED .CONFIGURING true [] none).stop (some 7)).post.state = .FAILED :=
  ⟨((claim_C5_failure_policy (Startable.mk .FAILED .CONFIGURING true [] none) 7 none).1
      (by decide)).1,
   ((claim_C5_failure_policy (Startable.mk .FAILED .CONFIGURING true [] none) 7 none).2.1
      (by decide) (by decide) (by decide) (by decide)).2.2,
   ((claim_C5_failure_policy (Startable.mk .STOPPED .UNCONFIGURED true [] none) 7 none).2.2.1
      rfl (by decide) rfl).1,
   ((claim_C5_failure_policy (Startable.mk .STOPPED .UNCONFIGURED true [] none) 7 none).2.2.1
      rfl (by decide) rfl).2.2,
   ((claim_C5_failure_policy (Startable.mk .FAILED .CONFIGURING true [] none) 7 none).2.2.2.1
      (by decide)).1⟩

/-! ## C7: idempotent start -/

/-- Counterexample to C7 as stated: its parenthetical says `start()` is a
no-op whenever `enabled` is false, but on a fresh never-configured object
with `enabled = false` the implicit `configure()` still runs: `start()`
writes `CONFIGURING, CONFIGURED` and fires events, so it is not a no-op. -/
theorem claim_C7_counterexample :
    (Startable.start (Startable.mk .STOPPED .UNCONFIGURED false [.listener 0] none)
        none none).writes = [.CONFIGURING, .CONFIGURED]
    ∧ (Startable.start (Startable.mk .STOPPED .UNCONFIGURED false [.listener 0] none)
        none none).events ≠ [] := by
  decide

/-- C7 as amended: for a fresh enabled `Startable`, two consecutive
`start()` calls produce exactly one starting and one started notification
per registered listener — the second call is a complete no-op because the
state is already `STARTED`; and `start()` is a no-op whenever the state is
`STARTED` or `STARTING` or `enabled` is false, *provided* the configured
marker is not `UNCONFIGURED` (otherwise only the implicit `configure()`
runs, as C10 records). -/
theorem claim_C7_amended_idempotent_start :
    ∀ (ls : List LVal) (cfg : Option Nat) (ce se : Option Nat) (s : Startable),
      ((Startable.start (Startable.mk .STOPPED .UNCONFIGURED true ls cfg) none none).events =
          ls.map (fun l => (l, EvKind.configuring))
            ++ ls.map (fun l => (l, EvKind.configured))
            ++ ls.map (fun l => (l, EvKind.starting))
            ++ ls.map (fun l => (l, EvKind.started)))
      ∧ (Startable.start
            (Startable.start (Startable.mk .STOPPED .UNCONFIGURED true ls cfg) none none).post
            none none
          = noopRes
              (Startable.start (Startable.mk .STOPPED .UNCONFIGURED true ls cfg) none none).post)
      ∧ (¬ s.configured = .UNCONFIGURED →
          (¬ s.enabled ∨ s.state = .STARTED ∨ s.state = .STARTING) →
          s.start ce se = noopRes s) := by
  intro ls cfg ce se s
  have h := st_cfg_ok_enabled (Startable.mk .STOPPED .UNCONFIGURED true ls cfg) rfl (by simp) rfl
  refine ⟨?_, ?_, ?_⟩
  · rw [h]
  · rw [h]
    exact st_skip_noop _ none none (by simp) (Or.inr (Or.inl rfl))
  · intro h1 h2
    exact st_skip_noop s ce se h1 h2

/-- Witness for C7 (amended): a started, configured object is left untouched
by a further `start()`. -/
theorem claim_C7_amended_witness :
    Startable.start (Startable.mk .STARTED .CONFIGURED true [.listener 0] none) none none
      = noopRes (Startable.mk .STARTED .CONFIGURED true [.listener 0] none) :=
  (claim_C7_amended_idempotent_start [] none none none
      (Startable.mk .STARTED .CONFIGURED true [.listener 0] none)).2.2
    (by decide) (Or.inr (Or.inl rfl))

/-! ## C9: a failed configure is never re-attempted by start() -/

/-- Whether a call is a `start()` call. -/
def Call.isStart : Call → Bool
  | .strt _ _ => true
  | _ => false

/-- Unfolding of `runWrites` over a first call. -/
theorem runWrites_cons (s : Startable) (c : Call) (cs : List Call) :
    runWrites s (c :: cs) =
      (applyCall s c).writes ++ runWrites (applyCall s c).post cs := by
  simp [runWrites, runCalls]

/-- When the configured marker is `CONFIGURING` (as it is left after a failed
`configure()`), `start()` skips the implicit configure: its result does not
depend on the configure hook, it performs no CONFIGURING/CONFIGURED write,
and it leaves the marker at `CONFIGURING`. -/
theorem start_marker_configuring (s : Startable) (ce se : Option Nat)
    (h : s.configured = .CONFIGURING) :
    s.start ce se = s.start none se
    ∧ SState.CONFIGURING ∉ (s.start ce se).writes
    ∧ SState.CONFIGURED ∉ (s.start ce se).writes
    ∧ (s.start ce se).post.configured = .CONFIGURING := by
  have h1 : ¬ s.configured = .UNCONFIGURED := by simp [h]
  by_cases h2 : ¬ s.enabled ∨ s.state = .STARTED ∨ s.state = .STARTING
  · rw [st_skip_noop s ce se h1 h2, st_skip_noop s none se h1 h2]
    simp [noopRes, h]
  · push_neg at h2
    have hen : s.enabled = true := by simpa using h2.1
    cases se with
    | none =>
        rw [st_skip_ok s ce h1 hen h2.2.1 h2.2.2, st_skip_ok s none h1 hen h2.2.1 h2.2.2]
        simp [h]
    | some e =>
        rw [st_skip_fail s ce e h1 hen h2.2.1 h2.2.2, st_skip_fail s none e h1 hen h2.2.1 h2.2.2]
        simp [h]

/-- Over any sequence of `start()` calls on an object whose marker is
`CONFIGURING`, no CONFIGURING or CONFIGURED state write ever occurs and the
marker stays `CONFIGURING`. -/
theorem starts_never_reconfigure (s : Startable) (cs : List Call)
    (hm : s.configured = .CONFIGURING) (hcs : ∀ c ∈ cs, c.isStart = true) :
    SState.CONFIGURING ∉ runWrites s cs ∧ SState.CONFIGURED ∉ runWrites s cs := by
  induction cs generalizing s with
  | nil => simp [runWrites, runCalls]
  | cons c rest ih =>
      cases c with
      | conf e =>
          have hbad := hcs (Call.conf e) (by simp)
          simp [Call.isStart] at hbad
      | stp e =>
          have hbad := hcs (Call.stp e) (by simp)
          simp [Call.isStart] at hbad
      | strt ce se =>
          have hstep := start_marker_configuring s ce se hm
          have hrest := ih (s.start ce se).post hstep.2.2.2
            (fun c hc => hcs c (by simp [hc]))
          rw [runWrites_cons]
          constructor
          · simp only [List.mem_append]
            rintro (h | h)
            · exact hstep.2.1 h
            · exact hrest.1 h
          · simp only [List.mem_append]
            rintro (h | h)
            · exact hstep.2.2.1 h
            · exact hrest.2 h

/-- C9: when `configure()` raises, the secondary configured marker is left at
`CONFIGURING` (not reset to `UNCONFIGURED`); consequently any later `start()`
skips the implicit `configure()` — its outcome is independent of the
configure hook, no CONFIGURING/CONFIGURED transition ever happens again
across any sequence of `start()` calls, and the marker stays
`CONFIGURING`. -/
theorem claim_C9_failed_configure_never_retried :
    ∀ (s : Startable) (e : Nat) (ce se : Option Nat) (cs : List Call),
      (¬ (s.configured = .CONFIGURED ∨ s.state = .CONFIGURED ∨ s.state = .CONFIGURING) →
        (s.configure (some e)).post.configured = .CONFIGURING)
      ∧ (s.configured = .CONFIGURING →
          s.start ce se = s.start none se
          ∧ SState.CONFIGURING ∉ (s.start ce se).writes
          ∧ SState.CONFIGURED ∉ (s.start ce se).writes
          ∧ (s.start ce se).post.configured = .CONFIGURING)
      ∧ (s.configured = .CONFIGURING → (∀ c ∈ cs, c.isStart = true) →
          SState.CONFIGURING ∉ runWrites s cs ∧ SState.CONFIGURED ∉ runWrites s cs) := by
  intro s e ce se cs
  refine ⟨?_, ?_, ?_⟩
  · intro hg
    simp [cfg_fail s e hg]
  · intro hm
    exact start_marker_configuring s ce se hm
  · intro hm hcs
    exact starts_never_reconfigure s cs hm hcs

/-- Witness for C9: a fresh object whose `do_configure` raises `3` is left
with marker `CONFIGURING`, and two subsequent `start()` calls (with a
configure hook that would raise `4`) never write CONFIGURING again. -/
theorem claim_C9_witness :
    ((Startable.init none).configure (some 3)).post.configured = .CONFIGURING
    ∧ SState.CONFIGURING ∉
        runWrites (Startable.mk .FAILED .CONFIGURING true [] none)
          [Call.strt (some 4) none, Call.strt (some 4) (some 5)] :=
  ⟨(claim_C9_failed_configure_never_retried (Startable.init none) 3 none none []).1
      (by decide),
   ((claim_C9_failed_configure_never_retried
        (Startable.mk .FAILED .CONFIGURING true [] none) 3 none none
        [Call.strt (some 4) none, Call.strt (some 4) (some 5)]).2.2
      rfl (by decide)).1⟩

/-! ## C3: every transition fires exactly the matching event -/

/-- The listener event matching a state write; a write of `FAILED` matches
`on_failure` with the operation's exception. `UNCONFIGURED` is never written
by any operation (proved below), so its image is irrelevant. -/
def evOfWrite (exc : Nat) : SState → EvKind
  | .CONFIGURING => .configuring
  | .CONFIGURED => .configured
  | .STARTING => .starting
  | .STARTED => .started
  | .STOPPING => .stopping
  | .STOPPED => .stopped
  | .FAILED => .failure exc
  | .UNCONFIGURED => .configuring

/-- The event sequence in which each state write is immediately followed by
the matching notification of every listener of `ls`, in list order. -/
def eventsFor (ls : List LVal) (exc : Nat) (ws : List SState) : List (LVal × EvKind) :=
  ws.flatMap (fun st => ls.map (fun l => (l, evOfWrite exc st)))

/-- C3: for each of `configure()`/`start()`/`stop()`, the delivered events
are exactly one matching event per state transition, delivered to every
listener registered at the moment of the transition (the listener list never
changes during the call), in registration order, interleaved transition by
transition, all before the call returns or re-raises; `UNCONFIGURED` is
never written. -/
theorem claim_C3_transition_notification_exact :
    ∀ (s : Startable) (he ce se : Option Nat),
      ((s.configure he).events =
          eventsFor s.listeners ((s.configure he).raised.getD 0) (s.configure he).writes
        ∧ (s.configure he).post.listeners = s.listeners
        ∧ SState.UNCONFIGURED ∉ (s.configure he).writes)
      ∧ ((s.start ce se).events =
          eventsFor s.listeners ((s.start ce se).raised.getD 0) (s.start ce se).writes
        ∧ (s.start ce se).post.listeners = s.listeners
        ∧ SState.UNCONFIGURED ∉ (s.start ce se).writes)
      ∧ ((s.stop he).events =
          eventsFor s.listeners ((s.stop he).raised.getD 0) (s.stop he).writes
        ∧ (s.stop he).post.listeners = s.listeners
        ∧ SState.UNCONFIGURED ∉ (s.stop he).writes) := by
  intro s he ce se
  refine ⟨?_, ?_, ?_⟩
  · by_cases hg : s.configured = .CONFIGURED ∨ s.state = .CONFIGURED ∨ s.state = .CONFIGURING
    · simp [cfg_noop s he hg, noopRes, eventsFor]
    · cases he with
      | none => simp [cfg_ok s hg, eventsFor, evOfWrite]
      | some e => simp [cfg_fail s e hg, eventsFor, evOfWrite]
  · by_cases h1 : s.configured = .UNCONFIGURED
    · by_cases hg : s.configured = .CONFIGURED ∨ s.state = .CONFIGURED ∨ s.state = .CONFIGURING
      · by_cases h2 : ¬ s.enabled ∨ s.state = .STARTED ∨ s.state = .STARTING
        · simp [st_cfgnoop_noop s ce se h1 hg h2, noopRes, eventsFor]
        · push_neg at h2
          cases se with
          | none =>
              simp [st_cfgnoop_ok s ce h1 hg (by simpa using h2.1) h2.2.1 h2.2.2,
                eventsFor, evOfWrite]
          | some e =>
              simp [st_cfgnoop_fail s ce e h1 hg (by simpa using h2.1) h2.2.1 h2.2.2,
                eventsFor, evOfWrite]
      · cases ce with
        | some e => simp [st_cfg_fail s se e h1 hg, eventsFor, evOfWrite]
        | none =>
            cases hen : s.enabled
            · simp [st_cfg_ok_disabled s se h1 hg hen, eventsFor, evOfWrite]
            · cases se with
              | none => simp [st_cfg_ok_enabled s h1 hg hen, eventsFor, evOfWrite]
              | some e => simp [st_cfg_ok_enabled_fail s e h1 hg hen, eventsFor, evOfWrite]
    · by_cases h2 : ¬ s.enabled ∨ s.state = .STARTED ∨ s.state = .STARTING
      · simp [st_skip_noop s ce se h1 h2, noopRes, eventsFor]
      · push_neg at h2
        cases se with
        | none =>
            simp [st_skip_ok s ce h1 (by simpa using h2.1) h2.2.1 h2.2.2,
              eventsFor, evOfWrite]
        | some e =>
            simp [st_skip_fail s ce e h1 (by simpa using h2.1) h2.2.1 h2.2.2,
              eventsFor, evOfWrite]
  · by_cases hg : s.state = .STOPPED ∨ s.state = .STOPPING
    · simp [stp_noop s he hg, noopRes, eventsFor]
    · cases he with
      | none => simp [stp_ok s hg, eventsFor, evOfWrite]
      | some e => simp [stp_fail s e hg, eventsFor, evOfWrite]

/-! ## C4: the composite isolates per-child failures -/

/-- C4: during a `StartableManager` cascade (`do_configure`/`do_start`/
`do_stop`), a raising child does not disturb the others: every child in the
list is processed, in order, exactly as if cascaded alone (the map
equalities), each child's exception is caught and recorded in the log
component instead of propagating; the manager's own hook therefore never
raises, so the manager's operation does not raise and the manager never
transitions to `FAILED`. -/
theorem claim_C4_composite_isolates_child_failures :
    ∀ (m : Startable) (children : List ChildSpec),
      ((managerConfigure m children).2 =
          children.map (fun c =>
            ((Startable.configure { c.obj with configuration := m.configuration }
                c.confExc).post,
             (Startable.configure { c.obj with configuration := m.configuration }
                c.confExc).raised)))
      ∧ ((managerStart m children).2 =
          children.map (fun c =>
            ((c.obj.start c.confExc c.startExc).post,
             (c.obj.start c.confExc c.startExc).raised)))
      ∧ ((managerStop m children).2 =
          children.map (fun c => ((c.obj.stop c.stopExc).post, (c.obj.stop c.stopExc).raised)))
      ∧ (managerConfigure m children).1.raised = none
      ∧ (managerStart m children).1.raised = none
      ∧ (managerStop m children).1.raised = none
      ∧ SState.FAILED ∉ (managerConfigure m children).1.writes
      ∧ SState.FAILED ∉ (managerStart m children).1.writes
      ∧ SState.FAILED ∉ (managerStop m children).1.writes := by
  intro m children
  refine ⟨?_, ?_, ?_, ?_, ?_, ?_, ?_, ?_, ?_⟩
  · induction children with
    | nil => rfl
    | cons c rest ih => simp [mgrDoConfigure, managerConfigure] at ih ⊢; exact ih
  · induction children with
    | nil => rfl
    | cons c rest ih => simp [mgrDoStart, managerStart] at ih ⊢; exact ih
  · induction children with
    | nil => rfl
    | cons c rest ih => simp [mgrDoStop, managerStop] at ih ⊢; exact ih
  · exact (configure_none_safe m).1
  · exact (start_none_safe m).1
  · exact (stop_none_safe m).1
  · exact (configure_none_safe m).2
  · exact (start_none_safe m).2
  · exact (stop_none_safe m).2

/-! ## C1: the state trace -/

/-- The transition edges the claim allows: the two chains
`UNCONFIGURED→CONFIGURING→CONFIGURED` and
`STOPPED→STARTING→STARTED→STOPPING→STOPPED`, plus entering `FAILED` from a
hook-running state. -/
def specEdge : SState → SState → Bool
  | .UNCONFIGURED, .CONFIGURING => true
  | .CONFIGURING, .CONFIGURED => true
  | .STOPPED, .STARTING => true
  | .STARTING, .STARTED => true
  | .STARTED, .STOPPING => true
  | .STOPPING, .STOPPED => true
  | .CONFIGURING, .FAILED => true
  | .STARTING, .FAILED => true
  | .STOPPING, .FAILED => true
  | _, _ => false

/-- The transition edges the code actually produces on the `_state` field:
the claim's edges (except `UNCONFIGURED→CONFIGURING`, which never occurs
because `_state` is never `UNCONFIGURED`), together with the entries into
`CONFIGURING`, `STARTING` and `STOPPING` from the states in which the
operations really begin (`STOPPED`, `CONFIGURED`, `STARTED`, `FAILED`). -/
def codeEdge : SState → SState → Bool
  | .STOPPED, .CONFIGURING => true
  | .STARTED, .CONFIGURING => true
  | .FAILED, .CONFIGURING => true
  | .CONFIGURING, .CONFIGURED => true
  | .CONFIGURING, .FAILED => true
  | .STOPPED, .STARTING => true
  | .CONFIGURED, .STARTING => true
  | .FAILED, .STARTING => true
  | .STARTING, .STARTED => true
  | .STARTING, .FAILED => true
  | .STARTED, .STOPPING => true
  | .CONFIGURED, .STOPPING => true
  | .FAILED, .STOPPING => true
  | .STOPPING, .STOPPED => true
  | .STOPPING, .FAILED => true
  | _, _ => false

/-- The states in which an operation can begin or end: every public call
leaves the object in one of these. -/
def restingB : SState → Bool
  | .STOPPED => true
  | .CONFIGURED => true
  | .STARTED => true
  | .FAILED => true
  | _ => false

/-- Unfolding of `restingB`. -/
theorem restingB_iff (st : SState) :
    restingB st = true ↔
      st = .STOPPED ∨ st = .CONFIGURED ∨ st = .STARTED ∨ st = .FAILED := by
  cases st <;> simp [restingB]

/-- `getLastD` over a cons. -/
theorem getLastD_cons_eq (b a : SState) (l : List SState) :
    (b :: l).getLastD a = l.getLastD b := by
  cases l <;> rfl

/-- `chainOk` splits over an append at the last element of the first part. -/
theorem chainOk_append (edge : SState → SState → Bool) (a : SState)
    (w1 w2 : List SState) :
    chainOk edge a (w1 ++ w2) = (chainOk edge a w1 && chainOk edge (w1.getLastD a) w2) := by
  induction w1 generalizing a with
  | nil => simp [chainOk]
  | cons b w1 ih =>
      simp only [List.cons_append, chainOk, getLastD_cons_eq, Bool.and_assoc]
      exact congrArg (fun x => edge a b && x) (ih b)

/-- Counterexample to C1 as stated: on a freshly constructed `Startable`
(whose `_state` starts at `STOPPED`, not `UNCONFIGURED`), a single
successful `configure()` writes `CONFIGURING, CONFIGURED`, and
`STOPPED→CONFIGURING` is not an edge of the claimed path diagram — the
observed state sequence is not a valid path through the claimed edges. -/
theorem claim_C1_counterexample :
    chainOk specEdge (Startable.init none).state
      (runWrites (Startable.init none) [Call.conf none]) = false := by
  decide

/-- One `configure()` call from a resting state extends the trace only along
`codeEdge`, ends in the state of its last write, lands in a resting state,
and writes `FAILED` exactly when it re-raises. -/
theorem configure_step (s : Startable) (he : Option Nat)
    (hres : restingB s.state = true) :
    chainOk codeEdge s.state (s.configure he).writes = true
    ∧ (s.configure he).post.state = (s.configure he).writes.getLastD s.state
    ∧ restingB (s.configure he).post.state = true
    ∧ (SState.FAILED ∈ (s.configure he).writes ↔ (s.configure he).raised.isSome = true) := by
  by_cases hg : s.configured = .CONFIGURED ∨ s.state = .CONFIGURED ∨ s.state = .CONFIGURING
  · simp [cfg_noop s he hg, noopRes, chainOk, hres, List.getLastD]
  · have hs := (restingB_iff s.state).1 hres
    have hns : ¬ s.state = .CONFIGURED := fun h => hg (Or.inr (Or.inl h))
    cases he with
    | none =>
        rcases hs with h | h | h | h
        · simp [cfg_ok s hg, h, chainOk, codeEdge, restingB, List.getLastD]
        · exact absurd h hns
        · simp [cfg_ok s hg, h, chainOk, codeEdge, restingB, List.getLastD]
        · simp [cfg_ok s hg, h, chainOk, codeEdge, restingB, List.getLastD]
    | some e =>
        rcases hs with h | h | h | h
        · simp [cfg_fail s e hg, h, chainOk, codeEdge, restingB, List.getLastD]
        · exact absurd h hns
        · simp [cfg_fail s e hg, h, chainOk, codeEdge, restingB, List.getLastD]
        · simp [cfg_fail s e hg, h, chainOk, codeEdge, restingB, List.getLastD]

/-- One `stop()` call from a resting state: same four properties. -/
theorem stop_step (s : Startable) (he : Option Nat)
    (hres : restingB s.state = true) :
    chainOk codeEdge s.state (s.stop he).writes = true
    ∧ (s.stop he).post.state = (s.stop he).writes.getLastD s.state
    ∧ restingB (s.stop he).post.state = true
    ∧ (SState.FAILED ∈ (s.stop he).writes ↔ (s.stop he).raised.isSome = true) := by
  by_cases hg : s.state = .STOPPED ∨ s.state = .STOPPING
  · simp [stp_noop s he hg, noopRes, chainOk, hres, List.getLastD]
  · have hs := (restingB_iff s.state).1 hres
    have hns : ¬ s.state = .STOPPED := fun h => hg (Or.inl h)
    cases he with
    | none =>
        rcases hs with h | h | h | h
        · exact absurd h hns
        · simp [stp_ok s hg, h, chainOk, codeEdge, restingB, List.getLastD]
        · simp [stp_ok s hg, h, chainOk, codeEdge, restingB, List.getLastD]
        · simp [stp_ok s hg, h, chainOk, codeEdge, restingB, List.getLastD]
    | some e =>
        rcases hs with h | h | h | h
        · exact absurd h hns
        · simp [stp_fail s e hg, h, chainOk, codeEdge, restingB, List.getLastD]
        · simp [stp_fail s e hg, h, chainOk, codeEdge, restingB, List.getLastD]
        · simp [stp_fail s e hg, h, chainOk, codeEdge, restingB, List.getLastD]

/-- One `start()` call from a resting state: same four properties, across
all combinations of marker, guards and hook behaviours. -/
theorem start_step (s : Startable) (ce se : Option Nat)
    (hres : restingB s.state = true) :
    chainOk codeEdge s.state (s.start ce se).writes = true
    ∧ (s.start ce se).post.state = (s.start ce se).writes.getLastD s.state
    ∧ restingB (s.start ce se).post.state = true
    ∧ (SState.FAILED ∈ (s.start ce se).writes ↔ (s.start ce se).raised.isSome = true) := by
  by_cases h1 : s.configured = .UNCONFIGURED
  · by_cases hg : s.configured = .CONFIGURED ∨ s.state = .CONFIGURED ∨ s.state = .CONFIGURING
    · have hcfgd : s.state = .CONFIGURED := by
        rcases hg with h | h | h
        · rw [h1] at h; exact absurd h (by decide)
        · exact h
        · rcases (restingB_iff s.state).1 hres with h2 | h2 | h2 | h2 <;> rw [h2] at h <;>
            exact absurd h (by decide)
      by_cases h2 : ¬ s.enabled ∨ s.state = .STARTED ∨ s.state = .STARTING
      · simp [st_cfgnoop_noop s ce se h1 hg h2, noopRes, chainOk, hres, List.getLastD]
      · push_neg at h2
        cases se with
        | none =>
            simp [st_cfgnoop_ok s ce h1 hg (by simpa using h2.1) h2.2.1 h2.2.2,
              hcfgd, chainOk, codeEdge, restingB, List.getLastD]
        | some e =>
            simp [st_cfgnoop_fail s ce e h1 hg (by simpa using h2.1) h2.2.1 h2.2.2,
              hcfgd, chainOk, codeEdge, restingB, List.getLastD]
    · have hs : s.state = .STOPPED ∨ s.state = .STARTED ∨ s.state = .FAILED := by
        rcases (restingB_iff s.state).1 hres with h | h | h | h
        · exact Or.inl h
        · exact absurd (Or.inr (Or.inl h)) hg
        · exact Or.inr (Or.inl h)
        · exact Or.inr (Or.inr h)
      cases ce with
      | some e =>
          rcases hs with h | h | h <;>
            simp [st_cfg_fail s se e h1 hg, h, chainOk, codeEdge, restingB, List.getLastD]
      | none =>
          cases hen : s.enabled with
          | false =>
              rcases hs with h | h | h <;>
                simp [st_cfg_ok_disabled s se h1 hg hen, h, chainOk, codeEdge, restingB,
                  List.getLastD]
          | true =>
              cases se with
              | none =>
                  rcases hs with h | h | h <;>
                    simp [st_cfg_ok_enabled s h1 hg hen, h, chainOk, codeEdge, restingB,
                      List.getLastD]
              | some e =>
                  rcases hs with h | h | h <;>
                    simp [st_cfg_ok_enabled_fail s e h1 hg hen, h, chainOk, codeEdge,
                      restingB, List.getLastD]
  · by_cases h2 : ¬ s.enabled ∨ s.state = .STARTED ∨ s.state = .STARTING
    · simp [st_skip_noop s ce se h1 h2, noopRes, chainOk, hres, List.getLastD]
    · push_neg at h2
      have hs : s.state = .STOPPED ∨ s.state = .CONFIGURED ∨ s.state = .FAILED := by
        rcases (restingB_iff s.state).1 hres with h | h | h | h
        · exact Or.inl h
        · exact Or.inr (Or.inl h)
        · exact absurd h h2.2.1
        · exact Or.inr (Or.inr h)
      cases se with
      | none =>
          rcases hs with h | h | h <;>
            simp [st_skip_ok s ce h1 (by simpa using h2.1) h2.2.1 h2.2.2, h, chainOk,
              codeEdge, restingB, List.getLastD]
      | some e =>
          rcases hs with h | h | h <;>
            simp [st_skip_fail s ce e h1 (by simpa using h2.1) h2.2.1 h2.2.2, h, chainOk,
              codeEdge, restingB, List.getLastD]

/-- One call of any kind from a resting state: the four step properties. -/
theorem applyCall_step (s : Startable) (c : Call)
    (hres : restingB s.state = true) :
    chainOk codeEdge s.state (applyCall s c).writes = true
    ∧ (applyCall s c).post.state = (applyCall s c).writes.getLastD s.state
    ∧ restingB (applyCall s c).post.state = true
    ∧ (SState.FAILED ∈ (applyCall s c).writes ↔ (applyCall s c).raised.isSome = true) := by
  cases c with
  | conf e => exact configure_step s e hres
  | strt ce se => exact start_step s ce se hres
  | stp e => exact stop_step s e hres

/-- Over any call sequence from a resting state, the whole write trace chains
along `codeEdge` and each call writes `FAILED` exactly when it re-raises. -/
theorem run_chain (s : Startable) (cs : List Call)
    (hres : restingB s.state = true) :
    chainOk codeEdge s.state (runWrites s cs) = true
    ∧ ∀ r ∈ runCalls s cs, (SState.FAILED ∈ r.writes ↔ r.raised.isSome = true) := by
  induction cs generalizing s with
  | nil => simp [runWrites, runCalls, chainOk]
  | cons c rest ih =>
      have hstep := applyCall_step s c hres
      have hrest := ih (applyCall s c).post hstep.2.2.1
      constructor
      · rw [runWrites_cons, chainOk_append, hstep.1, ← hstep.2.1]
        simpa using hrest.1
      · intro r hr
        have hr' : r = applyCall s c ∨ r ∈ runCalls (applyCall s c).post rest := by
          simpa [runCalls] using hr
        rcases hr' with rfl | hr'
        · exact hstep.2.2.2
        · exact hrest.2 r hr'

/-- C1 as amended: for every finite call sequence on a freshly constructed
`Startable` (with any listeners and configuration), the sequence of values
taken by the state field is a valid path through the claimed chains
*extended with the entry edges the code actually takes* — `_state` starts at
`STOPPED` (never `UNCONFIGURED`), so configuring starts from
`STOPPED`/`STARTED`/`FAILED`, starting from `STOPPED`/`CONFIGURED`/`FAILED`
and stopping from `STARTED`/`CONFIGURED`/`FAILED` — and `FAILED` is entered
only as the immediate successor of `CONFIGURING`/`STARTING`/`STOPPING`
(built into `codeEdge`), exactly in the calls whose hook raised (each call
writes `FAILED` iff it re-raises the hook's exception). -/
theorem claim_C1_amended_trace_valid :
    ∀ (ls : List LVal) (cfg : Option Nat) (cs : List Call),
      chainOk codeEdge (Startable.mk .STOPPED .UNCONFIGURED true ls cfg).state
          (runWrites (Startable.mk .STOPPED .UNCONFIGURED true ls cfg) cs) = true
      ∧ ∀ r ∈ runCalls (Startable.mk .STOPPED .UNCONFIGURED true ls cfg) cs,
          (SState.FAILED ∈ r.writes ↔ r.raised.isSome = true) := by
  intro ls cfg cs
  exact run_chain (Startable.mk .STOPPED .UNCONFIGURED true ls cfg) cs rfl

/-- Witness for C1 (amended) at the concrete sequence
`configure(raises 3)`: the single call is in the run, and it writes `FAILED`
iff it re-raised — which it did. -/
theorem claim_C1_amended_witness :
    SState.FAILED ∈
        ((Startable.mk .STOPPED .UNCONFIGURED true [] none).configure (some 3)).writes
      ↔ ((Startable.mk .STOPPED .UNCONFIGURED true [] none).configure
          (some 3)).raised.isSome = true :=
  (claim_C1_amended_trace_valid [] none [Call.conf (some 3)]).2
    ((Startable.mk .STOPPED .UNCONFIGURED true [] none).configure (some 3))
    (by simp [runCalls, applyCall])
